import Mathlib

/-!
Shallow embedding of the taste-matching and recommendation core of the
Bolrea-Malrea backend.

Modelled source files:
  * `src/domain/a1_preference.py`   — deterministic hash-based tag scorer
  * `src/domain/a3_prediction.py`   — satisfaction probability calculator
  * `src/domain/a6_group_simulation.py` — group taste simulation
  * `src/ml/model_sample/analysis/group_recommendation.py` — group score aggregation
  * `src/llm_lab/recommender.py`    — LLM-constrained recommender (ID allowlist)

Modelling conventions:
  * Python floats are modelled as exact rationals (`ℚ`).
  * `math.sqrt` (a float operation) is modelled by `ratSqrt`, a fixed-point
    rational square-root approximation; the claims proved here depend only on
    its nonnegativity and on `ratSqrt 0 = 0`.
  * Python `round(x, 3)` is modelled by `round3` (round to nearest thousandth).
  * Python dicts of tag scores are modelled as association lists
    (`List (String × ℚ)`) with `dict.get`-style lookup.
  * Python functions that can raise are embedded with `Except String`;
    a function whose body contains no `raise` on any path is embedded as
    `.ok` of its computed value.
-/

/-- Python `round(x, 3)`: round to the nearest multiple of `1/1000`.
(CPython rounds ties on the binary float to even; exact ties are immaterial to
the claims proved here, so nearest-integer rounding is used.) -/
def round3 (q : ℚ) : ℚ := ((round (q * 1000) : ℤ) : ℚ) / 1000

/-- Model of `math.sqrt` on nonnegative inputs: a fixed-point rational
square-root approximation.  Always nonnegative, and `ratSqrt 0 = 0`. -/
def ratSqrt (q : ℚ) : ℚ := (Nat.sqrt (⌊q * 1000000⌋).toNat : ℚ) / 1000

/-- Python `d.get(k, 0.0)` on a tag-score dict modelled as an association
list: value of the first matching key, defaulting to `0`. -/
def dget (d : List (String × ℚ)) (k : String) : ℚ := (d.lookup k).getD 0

/-- `sum(x * x for x in a)` — the squared Euclidean norm of a vector. -/
def sumsq (a : List ℚ) : ℚ := (a.map (fun x => x * x)).sum

/-- `sum(x * y for x, y in zip(a, b))`. -/
def dotList (a b : List ℚ) : ℚ := ((a.zip b).map (fun p => p.1 * p.2)).sum

/-- `src/domain/a3_prediction.py::_cosine_sim`.
The source computes `na = math.sqrt(sum(x*x for x in a))` and returns `0.0`
when `na == 0 or nb == 0`; in exact arithmetic `na = 0` iff the radicand is
`0`, and the zero test is made on the radicand here because `ratSqrt` is an
approximation. -/
def _cosine_sim (a b : List ℚ) : ℚ :=
  let dot := dotList a b
  let na := ratSqrt (sumsq a)
  let nb := ratSqrt (sumsq b)
  if sumsq a = 0 ∨ sumsq b = 0 then 0 else dot / (na * nb)

/-- `src/domain/a3_prediction.py::_align_vector`:
`[float(d.get(k, 0.0)) for k in keys]`. -/
def _align_vector (d : List (String × ℚ)) (keys : List String) : List ℚ :=
  keys.map (dget d)

/-- A taste profile (`TasteProfile` of the spec): the five category
tag-score dicts produced by `analyze_preference` / consumed by
`calculate_satisfaction_probability`.  A category key missing from a Python
profile dict behaves exactly like an empty dict (`.get(cat, {})`), so missing
categories are modelled as empty association lists. -/
structure TasteProfile where
  emotion_scores : List (String × ℚ)
  narrative_traits : List (String × ℚ)
  direction_mood : List (String × ℚ)
  character_relationship : List (String × ℚ)
  ending_preference : List (String × ℚ)
deriving Repr, DecidableEq

/-- The empty (all-categories-missing) profile. -/
def emptyProfile : TasteProfile := ⟨[], [], [], [], []⟩

/-- Sum of `d[tag]` over `tag ∈ tags` for the tags present in `d`
(`if tag in d: acc += d[tag]`).  Tags listed twice are added twice, as in
the source's loop. -/
def tagSum (d : List (String × ℚ)) (tags : List String) : ℚ :=
  (tags.map (fun t => (d.lookup t).getD 0)).sum

/-- `src/domain/a3_prediction.py::_calculate_dislike_penalty`: sum of the
movie's scores, over the four tag categories, for every disliked tag present. -/
def _calculate_dislike_penalty (movie_profile : TasteProfile) (dislikes : List String) : ℚ :=
  tagSum movie_profile.emotion_scores dislikes
    + tagSum movie_profile.narrative_traits dislikes
    + tagSum movie_profile.direction_mood dislikes
    + tagSum movie_profile.character_relationship dislikes

/-- `src/domain/a3_prediction.py::_calculate_boost_score`: sum of the movie's
scores, over the four tag categories, for every boost tag present. -/
def _calculate_boost_score (movie_profile : TasteProfile) (boost_tags : List String) : ℚ :=
  tagSum movie_profile.emotion_scores boost_tags
    + tagSum movie_profile.narrative_traits boost_tags
    + tagSum movie_profile.direction_mood boost_tags
    + tagSum movie_profile.character_relationship boost_tags

/-- One step of a stable descending insertion (used to model Python's stable
`list.sort(key=..., reverse=True)`): insert `x` before the first element with
a strictly smaller key, i.e. after all elements with keys `≥ x`. -/
def insertDesc (x : String × ℚ) : List (String × ℚ) → List (String × ℚ)
  | [] => [x]
  | y :: ys => if x.2 > y.2 then x :: y :: ys else y :: insertDesc x ys

/-- Stable descending sort by the second component, matching Python's
`sort(key=lambda x: x[1], reverse=True)`. -/
def sortByScoreDesc (l : List (String × ℚ)) : List (String × ℚ) :=
  l.foldl (fun acc x => insertDesc x acc) []

/-- `src/domain/a3_prediction.py::_top_factors`: the two dimension labels with
the highest similarity, ties broken by input order (emotion, narrative,
ending). -/
def _top_factors (sim_e sim_n sim_d : ℚ) : List String :=
  ((sortByScoreDesc [("정서 톤", sim_e), ("서사 초점", sim_n), ("결말 취향", sim_d)]).take 2).map
    Prod.fst

/-- The `breakdown` dict of a satisfaction result. -/
structure Breakdown where
  emotion_similarity : ℚ
  narrative_similarity : ℚ
  ending_similarity : ℚ
  boost_score : ℚ
  dislike_penalty : ℚ
  top_factors : List String
deriving Repr, DecidableEq

/-- The dict returned by `calculate_satisfaction_probability`
(`SatisfactionResult` of the spec). -/
structure SatisfactionResult where
  probability : ℚ
  confidence : ℚ
  raw_score : ℚ
  breakdown : Breakdown
deriving Repr, DecidableEq

/-- The default `weights` dict (`{"emotion": 0.5, "narrative": 0.3, "ending": 0.2}`). -/
def defaultWeights : List (String × ℚ) :=
  [("emotion", 1/2), ("narrative", 3/10), ("ending", 1/5)]

/-- Body of `src/domain/a3_prediction.py::calculate_satisfaction_probability`
(lines 61-135).  `none` for `dislikes`, `boost_tags` or `weights` models the
Python default `None`, replaced by `[]` / `[]` / the default weights dict at
the top of the function. -/
def satisfactionResultOf (user_profile movie_profile : TasteProfile)
    (dislikes boost_tags : Option (List String))
    (weights : Option (List (String × ℚ)))
    (penalty_weight boost_weight : ℚ) : SatisfactionResult :=
  let dislikes := dislikes.getD []
  let boost_tags := boost_tags.getD []
  let weights := weights.getD defaultWeights
  let e_keys := user_profile.emotion_scores.map Prod.fst
  let n_keys := user_profile.narrative_traits.map Prod.fst
  let d_keys := user_profile.ending_preference.map Prod.fst
  let sim_e := _cosine_sim (_align_vector user_profile.emotion_scores e_keys)
    (_align_vector movie_profile.emotion_scores e_keys)
  let sim_n := _cosine_sim (_align_vector user_profile.narrative_traits n_keys)
    (_align_vector movie_profile.narrative_traits n_keys)
  let sim_d := _cosine_sim (_align_vector user_profile.ending_preference d_keys)
    (_align_vector movie_profile.ending_preference d_keys)
  let boost_score := _calculate_boost_score movie_profile boost_tags
  let dislike_penalty := _calculate_dislike_penalty movie_profile dislikes
  let w_e := (weights.lookup "emotion").getD (1/2)
  let w_n := (weights.lookup "narrative").getD (3/10)
  let w_d := (weights.lookup "ending").getD (1/5)
  let raw_score := (w_e * sim_e + w_n * sim_n + w_d * sim_d)
    + (boost_weight * boost_score) - (penalty_weight * dislike_penalty)
  let probability := max 0 (min 1 ((raw_score + 1) / 2))
  let sims := [sim_e, sim_n, sim_d]
  let mean := sims.sum / (sims.length : ℚ)
  let variance := ((sims.map (fun x => (x - mean) ^ 2)).sum) / (sims.length : ℚ)
  let confidence := 1 - min (ratSqrt variance) 1
  { probability := round3 probability
    confidence := round3 confidence
    raw_score := round3 raw_score
    breakdown :=
      { emotion_similarity := round3 sim_e
        narrative_similarity := round3 sim_n
        ending_similarity := round3 sim_d
        boost_score := round3 boost_score
        dislike_penalty := round3 dislike_penalty
        top_factors := _top_factors sim_e sim_n sim_d } }

/-- `src/domain/a3_prediction.py::calculate_satisfaction_probability` as the
caller sees it.  No statement on any path of the source function (or of its
helpers) raises, so the embedding returns `.ok` of the computed result
unconditionally. -/
def calculate_satisfaction_probability (user_profile movie_profile : TasteProfile)
    (dislikes boost_tags : Option (List String))
    (weights : Option (List (String × ℚ)))
    (penalty_weight boost_weight : ℚ) : Except String SatisfactionResult :=
  .ok (satisfactionResultOf user_profile movie_profile dislikes boost_tags weights
    penalty_weight boost_weight)

/-- `src/domain/a1_preference.py::_stable_score`.  `hashlib.sha256` is Python
standard library; `h8` models `int(h[:8], 16)`, the integer value of the first
eight hex digits of the digest, which always lies in `[0, 2^32)`. -/
def _stable_score (h8 : ℕ) : ℚ := round3 ((h8 : ℚ) / 0xFFFFFFFF)

/-- Python `min(l)` on a non-empty list (the empty case is unreachable in the
modelled code, which guards every call; `0` is returned there to keep the
function total). -/
def pyMin : List ℚ → ℚ
  | [] => 0
  | x :: xs => xs.foldl min x

/-- Python `max(l)` on a non-empty list (empty case unreachable, see `pyMin`). -/
def pyMax : List ℚ → ℚ
  | [] => 0
  | x :: xs => xs.foldl max x

/-- Python `sorted(l)` on rationals: ascending order. -/
def pySorted (l : List ℚ) : List ℚ := l.insertionSort (· ≤ ·)

/-- Python `str.lower()` (ASCII case folding suffices for the strategy names
used by the source). -/
def strLower (s : String) : String := ⟨s.data.map Char.toLower⟩

/-- Python `\s`-style whitespace, as stripped by `str.strip()`. -/
def isPySpace (c : Char) : Bool :=
  c = ' ' || c = '\t' || c = '\n' || c = '\r' || c = '\x0b' || c = '\x0c'

/-- Python `str.strip()`: drop leading and trailing whitespace. -/
def strStrip (s : String) : String :=
  ⟨((s.data.dropWhile isPySpace).reverse.dropWhile isPySpace).reverse⟩

/-- `src/ml/model_sample/analysis/group_recommendation.py::aggregate_group_score`
(lines 418-440).  An empty probability list returns `0.0` before the strategy
name is even normalised; an unknown normalised strategy raises `ValueError`,
embedded as `.error`. -/
def aggregate_group_score (per_user_probs : List ℚ) (strategy : String) : Except String ℚ :=
  if per_user_probs = [] then .ok 0
  else
    let strategy := strStrip (strLower strategy)
    let probs := pySorted per_user_probs
    if strategy = "mean" ∨ strategy = "avg" ∨ strategy = "average" then
      .ok (probs.sum / (probs.length : ℚ))
    else if strategy = "least_misery" ∨ strategy = "min" then
      .ok (pyMin probs)
    else if strategy = "median" then
      let mid := probs.length / 2
      if probs.length % 2 = 1 then .ok (probs.getD mid 0)
      else .ok ((probs.getD (mid - 1) 0 + probs.getD mid 0) / 2)
    else if strategy = "trimmed_mean" then
      if probs.length ≤ 2 then .ok (probs.sum / (probs.length : ℚ))
      else
        let trimmed := (probs.drop 1).dropLast
        .ok (trimmed.sum / (trimmed.length : ℚ))
    else .error ("Unknown strategy: " ++ strategy ++ " (use mean|min|median|trimmed_mean)")

/-- `src/domain/a6_group_simulation.py::_level_from_prob`. -/
def _level_from_prob (prob : ℚ) : String :=
  if prob ≥ 17/20 then "매우 만족"
  else if prob ≥ 7/10 then "만족"
  else if prob ≥ 1/2 then "보통"
  else if prob ≥ 3/10 then "불만"
  else "매우 불만"

/-- `src/domain/a6_group_simulation.py::_group_comment`.  Note that the local
variable named `variance` in the source is the spread `max - min`. -/
def _group_comment (group_prob min_prob max_prob : ℚ) : String :=
  let variance := max_prob - min_prob
  if group_prob ≥ 7/10 then
    if variance < 1/5 then "모두가 만족할 만한 선택입니다!"
    else "전반적으로 만족도가 높지만, 일부 의견 차이가 있을 수 있습니다."
  else if group_prob ≥ 1/2 then
    if variance < 3/10 then "무난한 선택이지만, 더 나은 옵션을 찾아볼 수도 있습니다."
    else "의견이 갈릴 수 있는 선택입니다. 다른 영화도 고려해보세요."
  else "그룹 전체의 만족도가 낮을 수 있습니다. 다른 영화를 추천드립니다."

/-- One entry of the `members` list of a `simulate_group` payload. -/
structure GroupMember where
  user_id : String
  profile : TasteProfile
  dislikes : List String
  likes : List String
deriving Repr, DecidableEq

/-- One entry of the `members` list of a `simulate_group` result. -/
structure MemberResult where
  user_id : String
  probability : ℚ
  confidence : ℚ
  level : String
deriving Repr, DecidableEq

/-- The `statistics` dict of a `simulate_group` result. -/
structure GroupStatistics where
  min_satisfaction : ℚ
  max_satisfaction : ℚ
  avg_satisfaction : ℚ
  variance : ℚ
deriving Repr, DecidableEq

/-- The dict returned by `simulate_group` (`GroupResult` of the spec).  The
early return for an empty member list carries no `statistics` key, hence the
`Option`. -/
structure GroupResult where
  group_score : ℚ
  strategy : String
  members : List MemberResult
  comment : String
  recommendation : String
  statistics : Option GroupStatistics
deriving Repr, DecidableEq

/-- The per-member probabilities accumulated by the member loop of
`simulate_group` (`user_probs`): `float(result["probability"])` for each
member's call to `calculate_satisfaction_probability` (with the member's
likes/dislikes, default weights, and the payload's penalty/boost weights). -/
def memberProbs (members : List GroupMember) (movie_profile : TasteProfile)
    (penalty_weight boost_weight : ℚ) : List ℚ :=
  members.map (fun m =>
    (satisfactionResultOf m.profile movie_profile (some m.dislikes) (some m.likes)
      none penalty_weight boost_weight).probability)

/-- Body of `src/domain/a6_group_simulation.py::simulate_group` (lines 40-157),
with the payload's `.get` defaults already applied by the caller boundary
(`members`, `movie_profile`, `penalty_weight`, `boost_weight`, `strategy`).
The source accumulates `user_probs` and `member_results` in one loop; they are
modelled as two maps over the same member list.  The group score uses the
minimum for the strategy string `"least_misery"` and the arithmetic mean for
every other strategy string. -/
def groupResultOf (members : List GroupMember) (movie_profile : TasteProfile)
    (penalty_weight boost_weight : ℚ) (strategy : String) : GroupResult :=
  if members = [] then
    { group_score := 0
      strategy := strategy
      members := []
      comment := "그룹 입력이 없습니다."
      recommendation := "멤버를 추가해주세요."
      statistics := none }
  else
    let user_probs := memberProbs members movie_profile penalty_weight boost_weight
    let member_results := members.map (fun m =>
      let r := satisfactionResultOf m.profile movie_profile (some m.dislikes) (some m.likes)
        none penalty_weight boost_weight
      { user_id := m.user_id
        probability := r.probability
        confidence := r.confidence
        level := _level_from_prob r.probability : MemberResult })
    let group_prob :=
      if strategy = "least_misery" then pyMin user_probs
      else user_probs.sum / (user_probs.length : ℚ)
    let min_prob := pyMin user_probs
    let max_prob := pyMax user_probs
    let comment := _group_comment group_prob min_prob max_prob
    let recommendation :=
      if group_prob ≥ 7/10 then "이 영화를 함께 보시는 것을 추천드립니다!"
      else if group_prob ≥ 1/2 then "괜찮은 선택이지만, 다른 옵션도 고려해보세요."
      else "다른 영화를 찾아보시는 것을 권장합니다."
    { group_score := round3 group_prob
      strategy := strategy
      members := member_results
      comment := comment
      recommendation := recommendation
      statistics := some
        { min_satisfaction := round3 min_prob
          max_satisfaction := round3 max_prob
          avg_satisfaction := round3 (user_probs.sum / (user_probs.length : ℚ))
          variance := round3 (max_prob - min_prob) } }

/-- `src/domain/a6_group_simulation.py::simulate_group` as the caller sees it.
No statement on any path of the source function raises (its only callee,
`calculate_satisfaction_probability`, never raises), so the embedding returns
`.ok` unconditionally. -/
def simulate_group (members : List GroupMember) (movie_profile : TasteProfile)
    (penalty_weight boost_weight : ℚ) (strategy : String) : Except String GroupResult :=
  .ok (groupResultOf members movie_profile penalty_weight boost_weight strategy)

/-- A candidate movie as issued by the retriever to the recommender
(only the fields the validation logic touches). -/
structure Candidate where
  movie_id : ℤ
  title : String
deriving Repr, DecidableEq

/-- Digits-to-number conversion for `int(mid)` on a matched digit group. -/
def digitsToNat (ds : List Char) : ℕ :=
  ds.foldl (fun acc c => acc * 10 + (c.toNat - '0'.toNat)) 0

/-- Attempt to match the regex `\[ID:\s*(\d+)\]` at the head of the character
stream; on success return the captured number and the characters after the
match. -/
def matchIdAt : List Char → Option (ℕ × List Char)
  | '[' :: 'I' :: 'D' :: ':' :: rest =>
    let afterSpaces := rest.dropWhile isPySpace
    let digits := afterSpaces.takeWhile Char.isDigit
    let afterDigits := afterSpaces.dropWhile Char.isDigit
    if digits = [] then none
    else
      match afterDigits with
      | ']' :: rest2 => some (digitsToNat digits, rest2)
      | _ => none
  | _ => none

/-- Scan for all non-overlapping matches of `\[ID:\s*(\d+)\]`, left to right,
resuming after each match (the semantics of `re.findall`).  `fuel` bounds the
recursion; a match always consumes at least one character, so a fuel equal to
the input length is sufficient. -/
def idFindallAux : ℕ → List Char → List ℕ
  | 0, _ => []
  | _, [] => []
  | fuel + 1, c :: cs =>
    match matchIdAt (c :: cs) with
    | some (n, rest) => n :: idFindallAux fuel rest
    | none => idFindallAux fuel cs

/-- `re.findall(r'\[ID:\s*(\d+)\]', llm_response)`, each captured digit group
converted to a number. -/
def idFindall (s : String) : List ℕ := idFindallAux s.data.length s.data

/-- `src/llm_lab/recommender.py::LLMRecommender._extract_movie_ids`
(lines 168-199).

`jsonSelectedIds` is the model of the Python-standard-library composition
`re.search(r'\{[^}]*"selected_ids"[^}]*\}', response)` + `json.loads` +
`data.get("selected_ids", [])`: `none` models "no regex match, or
`json.JSONDecodeError`" (the source then falls through to the `[ID: n]`
pattern), and `some l` models a successfully parsed selection list.  The
theorems below quantify over every such parser, so they hold regardless of
the generator's response format.

On a parsed selection, only IDs present in the candidate list survive the
filter; on pattern fallback, likewise; if both fail, the first five candidates
are returned unchanged. -/
def _extract_movie_ids (jsonSelectedIds : String → Option (List ℤ))
    (llm_response : String) (candidates : List Candidate) : List ℤ :=
  match jsonSelectedIds llm_response with
  | some selected_ids =>
    let valid_ids := candidates.map Candidate.movie_id
    selected_ids.filter (fun mid => decide (mid ∈ valid_ids))
  | none =>
    let idMatches := idFindall llm_response
    if idMatches = [] then (candidates.take 5).map Candidate.movie_id
    else
      let valid_ids := candidates.map Candidate.movie_id
      (idMatches.map (fun mid => (mid : ℤ))).filter (fun mid => decide (mid ∈ valid_ids))

/-- Step 4 of `src/llm_lab/recommender.py::LLMRecommender.recommend`
(lines 116-120): for each selected ID (truncated to `top_k`), look up the
first candidate with that `movie_id` and keep it if found. -/
def selectRecommendations (selected_ids : List ℤ) (top_k : ℕ)
    (candidates : List Candidate) : List Candidate :=
  (selected_ids.take top_k).filterMap
    (fun mid => candidates.find? (fun c => c.movie_id == mid))

/-! ### Helper lemmas -/

lemma round3_nonneg {q : ℚ} (h : 0 ≤ q) : 0 ≤ round3 q := by
  unfold round3
  have h1 : (0 : ℤ) ≤ round (q * 1000) := by
    rw [round_eq]
    have : (0 : ℚ) ≤ q * 1000 + 1 / 2 := by positivity
    exact Int.floor_nonneg.2 this
  positivity

lemma round3_le_one {q : ℚ} (h : q ≤ 1) : round3 q ≤ 1 := by
  unfold round3
  have h1 : round (q * 1000) ≤ 1000 := by
    rw [round_eq]
    have h2 : q * 1000 + 1 / 2 ≤ 1000 + 1 / 2 := by linarith
    calc ⌊q * 1000 + 1 / 2⌋ ≤ ⌊(1000 : ℚ) + 1 / 2⌋ := Int.floor_mono h2
      _ = 1000 := by norm_num [Int.floor_eq_iff]
  rw [div_le_one (by norm_num)]
  exact_mod_cast h1

lemma round3_zero : round3 0 = 0 := by norm_num [round3]

lemma ratSqrt_nonneg (q : ℚ) : 0 ≤ ratSqrt q := by unfold ratSqrt; positivity

lemma ratSqrt_zero : ratSqrt 0 = 0 := by norm_num [ratSqrt]

lemma foldl_min_mem (xs : List ℚ) (x : ℚ) : xs.foldl min x ∈ x :: xs := by
  induction xs generalizing x with
  | nil => simp
  | cons c cs ih =>
    have h := ih (min x c)
    rcases List.mem_cons.1 h with h | h
    · rcases min_choice x c with hm | hm
      · rw [List.foldl_cons, h, hm]; exact List.mem_cons_self _ _
      · rw [List.foldl_cons, h, hm]
        exact List.mem_cons_of_mem _ (List.mem_cons_self _ _)
    · exact List.mem_cons_of_mem _ (List.mem_cons_of_mem _ h)

lemma foldl_min_le (xs : List ℚ) (x : ℚ) : ∀ y ∈ x :: xs, xs.foldl min x ≤ y := by
  induction xs generalizing x with
  | nil => intro y hy; rw [List.mem_singleton] at hy; simp [hy]
  | cons c cs ih =>
    intro y hy
    have hbase : cs.foldl min (min x c) ≤ min x c := ih (min x c) _ (List.mem_cons_self _ _)
    rw [List.foldl_cons]
    rcases List.mem_cons.1 hy with h | h
    · subst h; exact le_trans hbase (min_le_left _ _)
    · rcases List.mem_cons.1 h with h2 | h2
      · subst h2; exact le_trans hbase (min_le_right _ _)
      · exact ih (min x c) y (List.mem_cons_of_mem _ h2)

lemma foldl_max_mem (xs : List ℚ) (x : ℚ) : xs.foldl max x ∈ x :: xs := by
  induction xs generalizing x with
  | nil => simp
  | cons c cs ih =>
    have h := ih (max x c)
    rcases List.mem_cons.1 h with h | h
    · rcases max_choice x c with hm | hm
      · rw [List.foldl_cons, h, hm]; exact List.mem_cons_self _ _
      · rw [List.foldl_cons, h, hm]
        exact List.mem_cons_of_mem _ (List.mem_cons_self _ _)
    · exact List.mem_cons_of_mem _ (List.mem_cons_of_mem _ h)

lemma le_foldl_max (xs : List ℚ) (x : ℚ) : ∀ y ∈ x :: xs, y ≤ xs.foldl max x := by
  induction xs generalizing x with
  | nil => intro y hy; rw [List.mem_singleton] at hy; simp [hy]
  | cons c cs ih =>
    intro y hy
    have hbase : max x c ≤ cs.foldl max (max x c) := ih (max x c) _ (List.mem_cons_self _ _)
    rw [List.foldl_cons]
    rcases List.mem_cons.1 hy with h | h
    · subst h; exact le_trans (le_max_left _ _) hbase
    · rcases List.mem_cons.1 h with h2 | h2
      · subst h2; exact le_trans (le_max_right _ _) hbase
      · exact ih (max x c) y (List.mem_cons_of_mem _ h2)

lemma pyMin_mem {l : List ℚ} (h : l ≠ []) : pyMin l ∈ l := by
  cases l with
  | nil => exact absurd rfl h
  | cons x xs => exact foldl_min_mem xs x

lemma pyMin_le {l : List ℚ} : ∀ y ∈ l, pyMin l ≤ y := by
  cases l with
  | nil => intro y hy; simp at hy
  | cons x xs => exact foldl_min_le xs x

lemma pyMax_mem {l : List ℚ} (h : l ≠ []) : pyMax l ∈ l := by
  cases l with
  | nil => exact absurd rfl h
  | cons x xs => exact foldl_max_mem xs x

lemma le_pyMax {l : List ℚ} : ∀ y ∈ l, y ≤ pyMax l := by
  cases l with
  | nil => intro y hy; simp at hy
  | cons x xs => exact le_foldl_max xs x

lemma pyMin_perm {l l' : List ℚ} (p : l.Perm l') : pyMin l = pyMin l' := by
  cases l with
  | nil =>
    have := p.symm.eq_nil
    · rw [this]
  | cons x xs =>
    have hne : (x :: xs) ≠ ([] : List ℚ) := by simp
    have hne' : l' ≠ [] := by
      intro hl'
      rw [hl'] at p
      exact hne p.eq_nil
    apply le_antisymm
    · exact pyMin_le _ (p.mem_iff.2 (pyMin_mem hne'))
    · exact pyMin_le _ (p.mem_iff.1 (pyMin_mem hne))

lemma pyMax_perm {l l' : List ℚ} (p : l.Perm l') : pyMax l = pyMax l' := by
  cases l with
  | nil =>
    have := p.symm.eq_nil
    · rw [this]
  | cons x xs =>
    have hne : (x :: xs) ≠ ([] : List ℚ) := by simp
    have hne' : l' ≠ [] := by
      intro hl'
      rw [hl'] at p
      exact hne p.eq_nil
    apply le_antisymm
    · exact le_pyMax _ (p.mem_iff.1 (pyMax_mem hne))
    · exact le_pyMax _ (p.mem_iff.2 (pyMax_mem hne'))

lemma length_pos_cast {l : List ℚ} (h : l ≠ []) : (0 : ℚ) < (l.length : ℚ) := by
  have := List.length_pos.2 h
  exact_mod_cast this

lemma pyMin_le_mean {l : List ℚ} (h : l ≠ []) : pyMin l ≤ l.sum / (l.length : ℚ) := by
  have hpos := length_pos_cast h
  rw [le_div_iff₀ hpos]
  have := List.card_nsmul_le_sum l (pyMin l) pyMin_le
  rw [nsmul_eq_mul] at this
  linarith [this]

lemma mean_le_pyMax {l : List ℚ} (h : l ≠ []) : l.sum / (l.length : ℚ) ≤ pyMax l := by
  have hpos := length_pos_cast h
  rw [div_le_iff₀ hpos]
  have := List.sum_le_card_nsmul l (pyMax l) le_pyMax
  rw [nsmul_eq_mul] at this
  linarith [this]

lemma pySorted_perm (l : List ℚ) : (pySorted l).Perm l :=
  List.perm_insertionSort _ l

lemma pySorted_sorted (l : List ℚ) : List.Sorted (· ≤ ·) (pySorted l) :=
  List.sorted_insertionSort _ l

lemma pySorted_ne_nil {l : List ℚ} (h : l ≠ []) : pySorted l ≠ [] := by
  intro hs
  have p := pySorted_perm l
  rw [hs] at p
  exact h p.symm.eq_nil

lemma pySorted_length (l : List ℚ) : (pySorted l).length = l.length :=
  (pySorted_perm l).length_eq

lemma pySorted_sum (l : List ℚ) : (pySorted l).sum = l.sum :=
  (pySorted_perm l).sum_eq

lemma sorted_le_getLast : ∀ (l : List ℚ), List.Sorted (· ≤ ·) l → (h : l ≠ []) →
    ∀ x ∈ l, x ≤ l.getLast h
  | [], _, h, _, _ => absurd rfl h
  | [a], _, _, x, hx => by
    rw [List.mem_singleton] at hx
    simp [hx]
  | a :: b :: t, hs, _, x, hx => by
    have hbt : (b :: t) ≠ ([] : List ℚ) := by simp
    have hparts := List.sorted_cons.1 hs
    rw [List.getLast_cons hbt]
    rcases List.mem_cons.1 hx with h1 | h1
    · subst h1
      exact le_trans (hparts.1 _ (List.getLast_mem hbt)) (le_refl _)
    · exact sorted_le_getLast (b :: t) hparts.2 hbt x h1

lemma pySorted_cons_min {l : List ℚ} (h : l ≠ []) : ∃ t, pySorted l = pyMin l :: t := by
  rcases hs : pySorted l with _ | ⟨a, t⟩
  · exact absurd hs (pySorted_ne_nil h)
  · refine ⟨t, ?_⟩
    have hmem_l : ∀ x ∈ pySorted l, x ∈ l := fun x hx => (pySorted_perm l).mem_iff.1 hx
    have ha_l : a ∈ l := hmem_l a (by rw [hs]; exact List.mem_cons_self _ _)
    have hmin_s : pyMin l ∈ pySorted l := (pySorted_perm l).symm.mem_iff.1 (pyMin_mem h)
    have hsorted := pySorted_sorted l
    rw [hs] at hsorted hmin_s
    have hcons := List.sorted_cons.1 hsorted
    have h1 : pyMin l ≤ a := pyMin_le _ ha_l
    have h2 : a ≤ pyMin l := by
      rcases List.mem_cons.1 hmin_s with hm | hm
      · rw [hm]
      · exact hcons.1 _ hm
    rw [le_antisymm h1 h2]

lemma pySorted_getLast_eq {l : List ℚ} (h : l ≠ []) (h' : pySorted l ≠ []) :
    (pySorted l).getLast h' = pyMax l := by
  apply le_antisymm
  · exact le_pyMax _ ((pySorted_perm l).mem_iff.1 (List.getLast_mem h'))
  · exact sorted_le_getLast _ (pySorted_sorted l) h' _
      ((pySorted_perm l).symm.mem_iff.1 (pyMax_mem h))

lemma trimmed_sum_len {l : List ℚ} (h : 3 ≤ l.length) :
    ((pySorted l).drop 1).dropLast.sum = l.sum - pyMin l - pyMax l ∧
      ((pySorted l).drop 1).dropLast.length = l.length - 2 := by
  have hne : l ≠ [] := by
    intro hl
    rw [hl] at h
    simp at h
  obtain ⟨t, ht⟩ := pySorted_cons_min hne
  have hslen : (pySorted l).length = l.length := pySorted_length l
  have htne : t ≠ ([] : List ℚ) := by
    intro htnil
    rw [ht, htnil] at hslen
    simp at hslen
    omega
  have hdrop : (pySorted l).drop 1 = t := by rw [ht]; rfl
  have hsne : pySorted l ≠ [] := pySorted_ne_nil hne
  have hlast_t : t.getLast htne = pyMax l := by
    have h1 := pySorted_getLast_eq hne hsne
    revert h1 hsne
    rw [ht]
    intro hsne h1
    rw [← h1]
    exact (List.getLast_cons htne).symm
  have hdecomp : t.dropLast ++ [t.getLast htne] = t := List.dropLast_append_getLast htne
  constructor
  · have hsum_t : t.dropLast.sum + t.getLast htne = t.sum := by
      conv_rhs => rw [← hdecomp]
      rw [List.sum_append]
      simp
    have hsum_s : (pySorted l).sum = pyMin l + t.sum := by rw [ht]; simp
    have hsum_l : (pySorted l).sum = l.sum := pySorted_sum l
    rw [hdrop]
    rw [hlast_t] at hsum_t
    have : pyMin l + t.sum = l.sum := by rw [← hsum_s, hsum_l]
    linarith
  · have hlen_t : t.length = l.length - 1 := by
      have : (pySorted l).length = t.length + 1 := by rw [ht]; simp
      omega
    rw [hdrop, List.length_dropLast, hlen_t]
    omega

lemma agg_mean_raw {l : List ℚ} (h : l ≠ []) :
    aggregate_group_score l "mean" = .ok ((pySorted l).sum / ((pySorted l).length : ℚ)) := by
  unfold aggregate_group_score
  rw [if_neg h]
  rfl

lemma agg_mean {l : List ℚ} (h : l ≠ []) :
    aggregate_group_score l "mean" = .ok (l.sum / (l.length : ℚ)) := by
  rw [agg_mean_raw h, pySorted_sum, pySorted_length]

lemma agg_least_misery {l : List ℚ} (h : l ≠ []) :
    aggregate_group_score l "least_misery" = .ok (pyMin l) := by
  have hraw : aggregate_group_score l "least_misery" = .ok (pyMin (pySorted l)) := by
    unfold aggregate_group_score
    rw [if_neg h]
    rfl
  rw [hraw, pyMin_perm (pySorted_perm l)]

lemma agg_median_raw {l : List ℚ} (h : l ≠ []) :
    aggregate_group_score l "median" =
      (if (pySorted l).length % 2 = 1 then
        Except.ok ((pySorted l).getD ((pySorted l).length / 2) 0)
      else
        Except.ok (((pySorted l).getD ((pySorted l).length / 2 - 1) 0 +
          (pySorted l).getD ((pySorted l).length / 2) 0) / 2)) := by
  unfold aggregate_group_score
  rw [if_neg h]
  rfl

lemma agg_trimmed_raw {l : List ℚ} (h : l ≠ []) :
    aggregate_group_score l "trimmed_mean" =
      (if (pySorted l).length ≤ 2 then
        Except.ok ((pySorted l).sum / ((pySorted l).length : ℚ))
      else
        Except.ok ((((pySorted l).drop 1).dropLast).sum /
          (((pySorted l).drop 1).dropLast.length : ℚ))) := by
  unfold aggregate_group_score
  rw [if_neg h]
  rfl

lemma agg_unknown {l : List ℚ} {strategy : String} (h : l ≠ [])
    (hu : strStrip (strLower strategy) ∉
      ["mean", "avg", "average", "least_misery", "min", "median", "trimmed_mean"]) :
    aggregate_group_score l strategy =
      .error ("Unknown strategy: " ++ strStrip (strLower strategy) ++
        " (use mean|min|median|trimmed_mean)") := by
  simp only [List.mem_cons, List.mem_singleton, not_or] at hu
  obtain ⟨h1, h2, h3, h4, h5, h6, h7, -⟩ := hu
  unfold aggregate_group_score
  rw [if_neg h]
  simp only []
  rw [if_neg (by simp [h1, h2, h3]), if_neg (by simp [h4, h5]), if_neg h6, if_neg h7]

lemma round3_clip_bounds (p : ℚ) :
    0 ≤ round3 (max 0 (min 1 p)) ∧ round3 (max 0 (min 1 p)) ≤ 1 :=
  ⟨round3_nonneg (le_max_left _ _),
    round3_le_one (max_le (by norm_num) (min_le_left _ _))⟩

lemma round3_conf_bounds (v : ℚ) :
    0 ≤ round3 (1 - min (ratSqrt v) 1) ∧ round3 (1 - min (ratSqrt v) 1) ≤ 1 := by
  constructor
  · exact round3_nonneg (by linarith [min_le_right (ratSqrt v) (1 : ℚ)])
  · exact round3_le_one (by linarith [le_min (ratSqrt_nonneg v) (zero_le_one (α := ℚ))])

lemma lookup_mem {d : List (String × ℚ)} {k : String} {v : ℚ}
    (h : d.lookup k = some v) : (k, v) ∈ d := by
  induction d with
  | nil => simp [List.lookup] at h
  | cons p t ih =>
    rcases p with ⟨k', v'⟩
    rw [List.lookup] at h
    by_cases hk : k == k'
    · rw [hk] at h
      have hkk : k = k' := by exact_mod_cast eq_of_beq hk
      have hvv : v' = v := by injection h
      rw [hkk, hvv]
      exact List.mem_cons_self _ _
    · rw [Bool.not_eq_true] at hk
      rw [hk] at h
      exact List.mem_cons_of_mem _ (ih h)

lemma dget_zero {d : List (String × ℚ)} (hz : ∀ p ∈ d, p.2 = 0) (k : String) :
    dget d k = 0 := by
  unfold dget
  cases hl : d.lookup k with
  | none => rfl
  | some v =>
    have := hz (k, v) (lookup_mem hl)
    simpa using this

lemma sumsq_align_zero {d : List (String × ℚ)} (hz : ∀ p ∈ d, p.2 = 0)
    (keys : List String) : sumsq (_align_vector d keys) = 0 := by
  unfold sumsq _align_vector
  apply List.sum_eq_zero
  intro x hx
  rw [List.map_map, List.mem_map] at hx
  obtain ⟨k, _, rfl⟩ := hx
  simp [dget_zero hz]

lemma cosine_sim_right_zero {a b : List ℚ} (h : sumsq b = 0) : _cosine_sim a b = 0 := by
  unfold _cosine_sim
  rw [if_pos (Or.inr h)]

lemma satisfaction_probability_shape (up mp : TasteProfile) (d b : Option (List String))
    (w : Option (List (String × ℚ))) (pw bw : ℚ) :
    ∃ p, (satisfactionResultOf up mp d b w pw bw).probability = round3 (max 0 (min 1 p)) :=
  ⟨_, rfl⟩

lemma satisfaction_confidence_shape (up mp : TasteProfile) (d b : Option (List String))
    (w : Option (List (String × ℚ))) (pw bw : ℚ) :
    ∃ v, (satisfactionResultOf up mp d b w pw bw).confidence =
      round3 (1 - min (ratSqrt v) 1) :=
  ⟨_, rfl⟩

lemma satisfaction_emotion_sim (up mp : TasteProfile) (d b : Option (List String))
    (w : Option (List (String × ℚ))) (pw bw : ℚ) :
    (satisfactionResultOf up mp d b w pw bw).breakdown.emotion_similarity =
      round3 (_cosine_sim (_align_vector up.emotion_scores (up.emotion_scores.map Prod.fst))
        (_align_vector mp.emotion_scores (up.emotion_scores.map Prod.fst))) :=
  rfl

lemma satisfaction_narrative_sim (up mp : TasteProfile) (d b : Option (List String))
    (w : Option (List (String × ℚ))) (pw bw : ℚ) :
    (satisfactionResultOf up mp d b w pw bw).breakdown.narrative_similarity =
      round3 (_cosine_sim (_align_vector up.narrative_traits (up.narrative_traits.map Prod.fst))
        (_align_vector mp.narrative_traits (up.narrative_traits.map Prod.fst))) :=
  rfl

lemma satisfaction_ending_sim (up mp : TasteProfile) (d b : Option (List String))
    (w : Option (List (String × ℚ))) (pw bw : ℚ) :
    (satisfactionResultOf up mp d b w pw bw).breakdown.ending_similarity =
      round3 (_cosine_sim (_align_vector up.ending_preference (up.ending_preference.map Prod.fst))
        (_align_vector mp.ending_preference (up.ending_preference.map Prod.fst))) :=
  rfl

lemma groupResultOf_statistics {members : List GroupMember} (mp : TasteProfile)
    (pw bw : ℚ) (strat : String) (h : members ≠ []) :
    (groupResultOf members mp pw bw strat).statistics =
      some
        { min_satisfaction := round3 (pyMin (memberProbs members mp pw bw))
          max_satisfaction := round3 (pyMax (memberProbs members mp pw bw))
          avg_satisfaction := round3 ((memberProbs members mp pw bw).sum /
            ((memberProbs members mp pw bw).length : ℚ))
          variance := round3 (pyMax (memberProbs members mp pw bw) -
            pyMin (memberProbs members mp pw bw)) } := by
  unfold groupResultOf
  rw [if_neg h]

lemma groupResultOf_score_ite {members : List GroupMember} (mp : TasteProfile)
    (pw bw : ℚ) (strat : String) (h : members ≠ []) :
    (groupResultOf members mp pw bw strat).group_score =
      round3 (if strat = "least_misery" then pyMin (memberProbs members mp pw bw)
        else (memberProbs members mp pw bw).sum / ((memberProbs members mp pw bw).length : ℚ)) := by
  unfold groupResultOf
  rw [if_neg h]

/-! ### Claim theorems -/

/-- C4: for every non-empty probability list, `aggregate_group_score` computes
`mean` as the arithmetic average, `least_misery` as the minimum, `median` as
the middle of the sorted list (odd count) or the average of the two middle
values (even count), and `trimmed_mean` as the average after dropping the
single lowest and single highest value (identical to the mean when there are
at most 2 members); for `[0.9, 0.9, 0.2]`: `least_misery` = 0.2,
`mean` = 2/3 ≈ 0.667, `median` = 0.9. -/
theorem C4_aggregation_strategies (l : List ℚ) (h : l ≠ []) :
    aggregate_group_score l "mean" = .ok (l.sum / (l.length : ℚ)) ∧
    aggregate_group_score l "least_misery" = .ok (pyMin l) ∧
    aggregate_group_score l "median" =
      .ok (if l.length % 2 = 1 then (pySorted l).getD (l.length / 2) 0
        else ((pySorted l).getD (l.length / 2 - 1) 0 + (pySorted l).getD (l.length / 2) 0) / 2) ∧
    aggregate_group_score l "trimmed_mean" =
      .ok (if l.length ≤ 2 then l.sum / (l.length : ℚ)
        else (l.sum - pyMin l - pyMax l) / ((l.length - 2 : ℕ) : ℚ)) ∧
    aggregate_group_score [9/10, 9/10, 1/5] "least_misery" = .ok (1/5) ∧
    aggregate_group_score [9/10, 9/10, 1/5] "mean" = .ok (2/3) ∧
    aggregate_group_score [9/10, 9/10, 1/5] "median" = .ok (9/10) := by
  refine ⟨agg_mean h, agg_least_misery h, ?_, ?_, ?_, ?_, ?_⟩
  · rw [agg_median_raw h, pySorted_length]
    by_cases hp : l.length % 2 = 1
    · rw [if_pos hp, if_pos hp]
    · rw [if_neg hp, if_neg hp]
  · rw [agg_trimmed_raw h, pySorted_length]
    by_cases hlen : l.length ≤ 2
    · rw [if_pos hlen, if_pos hlen, pySorted_sum]
    · have h3 : 3 ≤ l.length := by omega
      obtain ⟨hsum, hlen2⟩ := trimmed_sum_len h3
      rw [if_neg hlen, if_neg hlen, hsum, hlen2]
  · rw [agg_least_misery (by simp)]
    norm_num [pyMin, min_def]
  · rw [agg_mean (by simp)]
    norm_num
  · rw [agg_median_raw (by simp)]
    have hs : pySorted [9/10, 9/10, 1/5] = [1/5, 9/10, 9/10] := by
      norm_num [pySorted, List.insertionSort, List.orderedInsert]
    rw [hs]
    norm_num

/-- C4 witness: the hypotheses of `C4_aggregation_strategies` discharged at
the concrete list `[0.9, 0.9, 0.2]`. -/
theorem C4_aggregation_strategies_witness :
    aggregate_group_score [9/10, 9/10, 1/5] "mean" =
      .ok (([9/10, 9/10, 1/5] : List ℚ).sum / (([9/10, 9/10, 1/5] : List ℚ).length : ℚ)) ∧
    aggregate_group_score [9/10, 9/10, 1/5] "least_misery" = .ok (pyMin [9/10, 9/10, 1/5]) :=
  ⟨(C4_aggregation_strategies [9/10, 9/10, 1/5] (by simp)).1,
    (C4_aggregation_strategies [9/10, 9/10, 1/5] (by simp)).2.1⟩

/-- C6: for every non-empty probability list, the `least_misery` aggregate is
at most the `mean` aggregate, which is at most the maximum member
probability. -/
theorem C6_aggregation_bounds (l : List ℚ) (h : l ≠ []) :
    ∃ lm mn, aggregate_group_score l "least_misery" = .ok lm ∧
      aggregate_group_score l "mean" = .ok mn ∧ lm ≤ mn ∧ mn ≤ pyMax l :=
  ⟨pyMin l, l.sum / (l.length : ℚ), agg_least_misery h, agg_mean h,
    pyMin_le_mean h, mean_le_pyMax h⟩

/-- C6 witness: the hypothesis of `C6_aggregation_bounds` discharged at the
concrete list `[0.9, 0.2]`. -/
theorem C6_aggregation_bounds_witness :
    ∃ lm mn, aggregate_group_score [9/10, 1/5] "least_misery" = .ok lm ∧
      aggregate_group_score [9/10, 1/5] "mean" = .ok mn ∧ lm ≤ mn ∧
      mn ≤ pyMax [9/10, 1/5] :=
  C6_aggregation_bounds [9/10, 1/5] (by simp)

/-- C10: `aggregate_group_score` on an empty probability list returns `0.0`
for every strategy string, unknown names included: the empty-input check
precedes strategy validation, so no error is raised. -/
theorem C10_empty_probs_before_validation (strategy : String) :
    aggregate_group_score [] strategy = .ok 0 := rfl

/-- A member with an empty profile and no tag sets: every similarity is 0,
so the satisfaction probability is exactly 0.5. -/
def memberA : GroupMember := { user_id := "u1", profile := emptyProfile, dislikes := [], likes := [] }

/-- A movie profile carrying one emotion tag with score 1. -/
def movieWarm : TasteProfile :=
  { emotion_scores := [("따뜻해요", 1)]
    narrative_traits := []
    direction_mood := []
    character_relationship := []
    ending_preference := [] }

/-- A member with an empty profile whose boost tag matches `movieWarm`:
probability 0.75. -/
def memberB : GroupMember :=
  { user_id := "u2", profile := emptyProfile, dislikes := [], likes := ["따뜻해요"] }

lemma probA : (satisfactionResultOf emptyProfile movieWarm (some []) (some [])
    none (7/10) (1/2)).probability = 1/2 := by
  simp only [satisfactionResultOf]
  norm_num [emptyProfile, movieWarm, _cosine_sim, _align_vector, sumsq, dotList,
    _calculate_boost_score, _calculate_dislike_penalty, tagSum, dget, defaultWeights,
    round3, round_eq, ratSqrt, min_def, max_def]

lemma probB : (satisfactionResultOf emptyProfile movieWarm (some []) (some ["따뜻해요"])
    none (7/10) (1/2)).probability = 3/4 := by
  simp only [satisfactionResultOf]
  norm_num [emptyProfile, movieWarm, _cosine_sim, _align_vector, sumsq, dotList,
    _calculate_boost_score, _calculate_dislike_penalty, tagSum, dget, defaultWeights,
    round3, round_eq, ratSqrt, min_def, max_def]

lemma memberProbs_concrete :
    memberProbs [memberA, memberB] movieWarm (7/10) (1/2) = [1/2, 3/4] := by
  unfold memberProbs
  rw [List.map_cons, List.map_cons, List.map_nil]
  rw [show memberA.profile = emptyProfile from rfl, show memberA.dislikes = ([] : List String) from rfl,
    show memberA.likes = ([] : List String) from rfl,
    show memberB.profile = emptyProfile from rfl, show memberB.dislikes = ([] : List String) from rfl,
    show memberB.likes = ["따뜻해요"] from rfl]
  rw [probA, probB]

/-- Modelled from the claim's words, for comparison only: the statistical
(population) variance of a list of values, `Σ (x − mean)² / n`. -/
def listStatVariance (l : List ℚ) : ℚ :=
  ((l.map (fun x => (x - l.sum / (l.length : ℚ)) ^ 2)).sum) / (l.length : ℚ)

/-- C8: for every non-empty member list, the `statistics.variance` field of
`simulate_group`'s result equals the spread `max_prob − min_prob` of the
member probabilities, rounded to 3 decimals — not the statistical variance
(at the two-member example the field is 0.25 while the rounded statistical
variance of the probabilities is 0.016). -/
theorem C8_variance_field_is_spread (members : List GroupMember) (mp : TasteProfile)
    (pw bw : ℚ) (strat : String) (h : members ≠ []) :
    ((groupResultOf members mp pw bw strat).statistics).map GroupStatistics.variance =
      some (round3 (pyMax (memberProbs members mp pw bw) -
        pyMin (memberProbs members mp pw bw))) ∧
    ((groupResultOf [memberA, memberB] movieWarm (7/10) (1/2) "least_misery").statistics).map
        GroupStatistics.variance = some (1/4) ∧
    (1/4 : ℚ) ≠
      round3 (listStatVariance (memberProbs [memberA, memberB] movieWarm (7/10) (1/2))) := by
  refine ⟨?_, ?_, ?_⟩
  · rw [groupResultOf_statistics mp pw bw strat h]
    rfl
  · rw [groupResultOf_statistics movieWarm (7/10) (1/2) "least_misery" (by simp)]
    rw [Option.map_some']
    rw [show (GroupStatistics.variance
      { min_satisfaction := round3 (pyMin (memberProbs [memberA, memberB] movieWarm (7/10) (1/2)))
        max_satisfaction := round3 (pyMax (memberProbs [memberA, memberB] movieWarm (7/10) (1/2)))
        avg_satisfaction := round3 ((memberProbs [memberA, memberB] movieWarm (7/10) (1/2)).sum /
          ((memberProbs [memberA, memberB] movieWarm (7/10) (1/2)).length : ℚ))
        variance := round3 (pyMax (memberProbs [memberA, memberB] movieWarm (7/10) (1/2)) -
          pyMin (memberProbs [memberA, memberB] movieWarm (7/10) (1/2))) }) =
      round3 (pyMax (memberProbs [memberA, memberB] movieWarm (7/10) (1/2)) -
        pyMin (memberProbs [memberA, memberB] movieWarm (7/10) (1/2))) from rfl]
    rw [memberProbs_concrete]
    norm_num [pyMax, pyMin, max_def, min_def, round3, round_eq]
  · rw [memberProbs_concrete]
    norm_num [listStatVariance, round3, round_eq]

/-- C8 witness: `C8_variance_field_is_spread` applied at the two-member
example, its hypothesis discharged there. -/
theorem C8_variance_field_is_spread_witness :
    ((groupResultOf [memberA, memberB] movieWarm (7/10) (1/2) "least_misery").statistics).map
        GroupStatistics.variance =
      some (round3 (pyMax (memberProbs [memberA, memberB] movieWarm (7/10) (1/2)) -
        pyMin (memberProbs [memberA, memberB] movieWarm (7/10) (1/2)))) :=
  (C8_variance_field_is_spread [memberA, memberB] movieWarm (7/10) (1/2) "least_misery"
    (by simp)).1

lemma memberProbsA : memberProbs [memberA] movieWarm (7/10) (1/2) = [1/2] := by
  unfold memberProbs
  rw [List.map_cons, List.map_nil]
  rw [show memberA.profile = emptyProfile from rfl,
    show memberA.dislikes = ([] : List String) from rfl,
    show memberA.likes = ([] : List String) from rfl]
  rw [probA]

/-- C2 counterexample: called with a `weights` mapping that omits every
required dimension key (`some []`), `calculate_satisfaction_probability`
does not raise: it returns a normal `.ok` result, identical to the result
under the default weights — refuting "raises when the weights mapping omits
one of the required dimension keys". -/
theorem C2_counterexample :
    calculate_satisfaction_probability emptyProfile movieWarm none none (some []) (7/10) (1/2) =
      .ok (satisfactionResultOf emptyProfile movieWarm none none (some []) (7/10) (1/2)) ∧
    satisfactionResultOf emptyProfile movieWarm none none (some []) (7/10) (1/2) =
      satisfactionResultOf emptyProfile movieWarm none none none (7/10) (1/2) :=
  ⟨rfl, rfl⟩

/-- C2 (amended): `calculate_satisfaction_probability` never raises — not for
missing profile or tag keys, and not when `weights` omits a required
dimension key either: each missing weight key silently falls back to its
default (emotion 0.5, narrative 0.3, ending 0.2), so a weights mapping that
omits every required key behaves exactly like the default weights. -/
theorem C2_amended_never_raises (up mp : TasteProfile) (d b : Option (List String))
    (w : Option (List (String × ℚ))) (pw bw : ℚ) :
    calculate_satisfaction_probability up mp d b w pw bw =
      .ok (satisfactionResultOf up mp d b w pw bw) ∧
    satisfactionResultOf up mp d b (some []) pw bw =
      satisfactionResultOf up mp d b none pw bw :=
  ⟨rfl, rfl⟩

/-- C3 counterexample: `simulate_group` called with the unknown strategy name
`"bogus"` on a non-empty member list does not raise: it silently computes a
group score (the arithmetic mean, here 0.5) — refuting "the group aggregation
operation raises a fatal configuration error for undefined strategy names". -/
theorem C3_counterexample :
    simulate_group [memberA] movieWarm (7/10) (1/2) "bogus" =
      .ok (groupResultOf [memberA] movieWarm (7/10) (1/2) "bogus") ∧
    (groupResultOf [memberA] movieWarm (7/10) (1/2) "bogus").group_score = 1/2 := by
  refine ⟨rfl, ?_⟩
  rw [groupResultOf_score_ite movieWarm (7/10) (1/2) "bogus" (by simp)]
  rw [if_neg (by decide : ¬("bogus" = "least_misery"))]
  rw [memberProbsA]
  norm_num [round3, round_eq]

/-- C3 (amended): `aggregate_group_score` raises a fatal configuration error
for a non-empty probability list and a strategy name outside the defined set
(mean/avg/average, least_misery/min, median, trimmed_mean); `simulate_group`,
however, never raises: it treats every strategy string other than
`"least_misery"` — unknown names included — as the arithmetic mean. -/
theorem C3_amended_unknown_strategy (probs : List ℚ) (strategy : String)
    (members : List GroupMember) (mp : TasteProfile) (pw bw : ℚ)
    (hp : probs ≠ [])
    (hu : strStrip (strLower strategy) ∉
      ["mean", "avg", "average", "least_misery", "min", "median", "trimmed_mean"])
    (hm : members ≠ []) (hs : strategy ≠ "least_misery") :
    (∃ e, aggregate_group_score probs strategy = .error e) ∧
    simulate_group members mp pw bw strategy =
      .ok (groupResultOf members mp pw bw strategy) ∧
    (groupResultOf members mp pw bw strategy).group_score =
      round3 ((memberProbs members mp pw bw).sum / ((memberProbs members mp pw bw).length : ℚ)) := by
  refine ⟨⟨_, agg_unknown hp hu⟩, rfl, ?_⟩
  rw [groupResultOf_score_ite mp pw bw strategy hm, if_neg hs]

/-- C3 witness: `C3_amended_unknown_strategy` applied at the strategy name
`"bogus"`, a one-element probability list and a one-member group. -/
theorem C3_amended_unknown_strategy_witness :
    (∃ e, aggregate_group_score [1/2] "bogus" = .error e) ∧
    simulate_group [memberA] movieWarm (7/10) (1/2) "bogus" =
      .ok (groupResultOf [memberA] movieWarm (7/10) (1/2) "bogus") ∧
    (groupResultOf [memberA] movieWarm (7/10) (1/2) "bogus").group_score =
      round3 ((memberProbs [memberA] movieWarm (7/10) (1/2)).sum /
        ((memberProbs [memberA] movieWarm (7/10) (1/2)).length : ℚ)) :=
  C3_amended_unknown_strategy [1/2] "bogus" [memberA] movieWarm (7/10) (1/2)
    (by simp) (by decide) (by simp) (by decide)

/-- C5: every tag score produced by the profile builder's per-tag scorer lies
in [0,1] (for every 8-hex-digit digest prefix value), and for every
satisfaction result both `probability` and `confidence` lie in [0,1], for all
profiles, tag lists and weight settings. -/
theorem C5_bounded_outputs :
    (∀ h8 : ℕ, h8 < 2 ^ 32 → 0 ≤ _stable_score h8 ∧ _stable_score h8 ≤ 1) ∧
    (∀ (up mp : TasteProfile) (d b : Option (List String))
      (w : Option (List (String × ℚ))) (pw bw : ℚ),
      0 ≤ (satisfactionResultOf up mp d b w pw bw).probability ∧
      (satisfactionResultOf up mp d b w pw bw).probability ≤ 1 ∧
      0 ≤ (satisfactionResultOf up mp d b w pw bw).confidence ∧
      (satisfactionResultOf up mp d b w pw bw).confidence ≤ 1) := by
  constructor
  · intro h8 hlt
    constructor
    · exact round3_nonneg (by positivity)
    · apply round3_le_one
      rw [div_le_one (by norm_num)]
      have : (h8 : ℚ) ≤ (4294967295 : ℚ) := by
        have : h8 ≤ 4294967295 := by omega
        exact_mod_cast this
      norm_num [this]
  · intro up mp d b w pw bw
    obtain ⟨p, hp⟩ := satisfaction_probability_shape up mp d b w pw bw
    obtain ⟨v, hv⟩ := satisfaction_confidence_shape up mp d b w pw bw
    rw [hp, hv]
    exact ⟨(round3_clip_bounds p).1, (round3_clip_bounds p).2,
      (round3_conf_bounds v).1, (round3_conf_bounds v).2⟩

/-- C5 witness: `C5_bounded_outputs` applied at the digest value 12345 and at
a concrete profile pair, its hypothesis discharged there. -/
theorem C5_bounded_outputs_witness :
    (0 ≤ _stable_score 12345 ∧ _stable_score 12345 ≤ 1) ∧
    (0 ≤ (satisfactionResultOf emptyProfile movieWarm none none none (7/10) (1/2)).probability ∧
      (satisfactionResultOf emptyProfile movieWarm none none none (7/10) (1/2)).probability ≤ 1 ∧
      0 ≤ (satisfactionResultOf emptyProfile movieWarm none none none (7/10) (1/2)).confidence ∧
      (satisfactionResultOf emptyProfile movieWarm none none none (7/10) (1/2)).confidence ≤ 1) :=
  ⟨C5_bounded_outputs.1 12345 (by norm_num),
    C5_bounded_outputs.2 emptyProfile movieWarm none none none (7/10) (1/2)⟩

/-- C7: `_cosine_sim` returns 0.0 (and does not raise) whenever either vector
has zero Euclidean norm (equivalently, zero sum of squares), and scoring any
user profile against an all-zero candidate profile yields similarity 0.0 for
every dimension of the breakdown. -/
theorem C7_zero_vector_safety :
    (∀ a b : List ℚ, sumsq a = 0 ∨ sumsq b = 0 → _cosine_sim a b = 0) ∧
    (∀ (up mp : TasteProfile) (d b : Option (List String))
      (w : Option (List (String × ℚ))) (pw bw : ℚ),
      (∀ p ∈ mp.emotion_scores, p.2 = 0) →
      (∀ p ∈ mp.narrative_traits, p.2 = 0) →
      (∀ p ∈ mp.direction_mood, p.2 = 0) →
      (∀ p ∈ mp.character_relationship, p.2 = 0) →
      (∀ p ∈ mp.ending_preference, p.2 = 0) →
      (satisfactionResultOf up mp d b w pw bw).breakdown.emotion_similarity = 0 ∧
      (satisfactionResultOf up mp d b w pw bw).breakdown.narrative_similarity = 0 ∧
      (satisfactionResultOf up mp d b w pw bw).breakdown.ending_similarity = 0) := by
  constructor
  · intro a b h
    unfold _cosine_sim
    rw [if_pos h]
  · intro up mp d b w pw bw hz1 hz2 _ _ hz5
    refine ⟨?_, ?_, ?_⟩
    · rw [satisfaction_emotion_sim, cosine_sim_right_zero (sumsq_align_zero hz1 _), round3_zero]
    · rw [satisfaction_narrative_sim, cosine_sim_right_zero (sumsq_align_zero hz2 _), round3_zero]
    · rw [satisfaction_ending_sim, cosine_sim_right_zero (sumsq_align_zero hz5 _), round3_zero]

/-- C7 witness: `C7_zero_vector_safety` applied at the zero vector `[0]` and
at the all-zero (empty-category) candidate profile, hypotheses discharged
there. -/
theorem C7_zero_vector_safety_witness :
    _cosine_sim [(0 : ℚ)] [1] = 0 ∧
    ((satisfactionResultOf movieWarm emptyProfile none none none (7/10) (1/2)).breakdown.emotion_similarity = 0 ∧
      (satisfactionResultOf movieWarm emptyProfile none none none (7/10) (1/2)).breakdown.narrative_similarity = 0 ∧
      (satisfactionResultOf movieWarm emptyProfile none none none (7/10) (1/2)).breakdown.ending_similarity = 0) :=
  ⟨C7_zero_vector_safety.1 [0] [1] (Or.inl (by norm_num [sumsq])),
    C7_zero_vector_safety.2 movieWarm emptyProfile none none none (7/10) (1/2)
      (by simp [emptyProfile]) (by simp [emptyProfile]) (by simp [emptyProfile])
      (by simp [emptyProfile]) (by simp [emptyProfile])⟩

lemma extract_fallback {jsonSelectedIds : String → Option (List ℤ)} {resp : String}
    (candidates : List Candidate) (h1 : jsonSelectedIds resp = none)
    (h2 : idFindall resp = []) :
    _extract_movie_ids jsonSelectedIds resp candidates =
      (candidates.take 5).map Candidate.movie_id := by
  unfold _extract_movie_ids
  rw [h1, h2]
  rfl

/-- C1: for every generator response, every behaviour of the standard-library
JSON-fragment parser, and every non-empty candidate list, each movie ID
returned by `_extract_movie_ids` is the `movie_id` of some issued candidate,
and hence every recommendation assembled by `recommend` from that selection
comes from the retrieved pool. -/
theorem C1_allowlist_enforcement (jsonSelectedIds : String → Option (List ℤ))
    (resp : String) (candidates : List Candidate) (top_k : ℕ) (h : candidates ≠ []) :
    (∀ mid ∈ _extract_movie_ids jsonSelectedIds resp candidates,
      ∃ c ∈ candidates, c.movie_id = mid) ∧
    (∀ c ∈ selectRecommendations (_extract_movie_ids jsonSelectedIds resp candidates)
        top_k candidates, c ∈ candidates) := by
  constructor
  · intro mid hmid
    unfold _extract_movie_ids at hmid
    cases hj : jsonSelectedIds resp with
    | some l =>
      rw [hj] at hmid
      simp only [List.mem_filter, decide_eq_true_eq] at hmid
      obtain ⟨c, hc, hcid⟩ := List.mem_map.1 hmid.2
      exact ⟨c, hc, hcid⟩
    | none =>
      rw [hj] at hmid
      by_cases hm : idFindall resp = []
      · rw [if_pos hm] at hmid
        obtain ⟨c, hc, hcid⟩ := List.mem_map.1 hmid
        exact ⟨c, List.take_subset _ _ hc, hcid⟩
      · rw [if_neg hm] at hmid
        simp only [List.mem_filter, decide_eq_true_eq] at hmid
        obtain ⟨c, hc, hcid⟩ := List.mem_map.1 hmid.2
        exact ⟨c, hc, hcid⟩
  · intro c hc
    unfold selectRecommendations at hc
    obtain ⟨mid, -, hfind⟩ := List.mem_filterMap.1 hc
    exact List.mem_of_find?_eq_some hfind

/-- C1 witness: `C1_allowlist_enforcement` applied with a parser that claims
the out-of-pool ID 99 (and the in-pool ID 1) against the pool with IDs
1, 2, 3; the non-emptiness hypothesis is discharged there. -/
theorem C1_allowlist_enforcement_witness :
    (∀ mid ∈ _extract_movie_ids (fun _ => some [99, 1]) "resp"
        [⟨1, "a"⟩, ⟨2, "b"⟩, ⟨3, "c"⟩],
      ∃ c ∈ [(⟨1, "a"⟩ : Candidate), ⟨2, "b"⟩, ⟨3, "c"⟩], c.movie_id = mid) ∧
    (∀ c ∈ selectRecommendations
        (_extract_movie_ids (fun _ => some [99, 1]) "resp" [⟨1, "a"⟩, ⟨2, "b"⟩, ⟨3, "c"⟩])
        5 [⟨1, "a"⟩, ⟨2, "b"⟩, ⟨3, "c"⟩],
      c ∈ [(⟨1, "a"⟩ : Candidate), ⟨2, "b"⟩, ⟨3, "c"⟩]) :=
  C1_allowlist_enforcement (fun _ => some [99, 1]) "resp"
    [⟨1, "a"⟩, ⟨2, "b"⟩, ⟨3, "c"⟩] 5 (by simp)

/-- C9: when the JSON-fragment parse yields nothing and no `[ID: n]` pattern
occurs in the response, `_extract_movie_ids` returns exactly the movie IDs of
the first five candidates in their given order — independent of `top_k`, which
it never receives — so the recommendations assembled from this fallback number
at most 5. -/
theorem C9_fallback_first_five (jsonSelectedIds : String → Option (List ℤ))
    (resp : String) (candidates : List Candidate) (top_k : ℕ)
    (h1 : jsonSelectedIds resp = none) (h2 : idFindall resp = []) :
    _extract_movie_ids jsonSelectedIds resp candidates =
      (candidates.take 5).map Candidate.movie_id ∧
    (selectRecommendations (_extract_movie_ids jsonSelectedIds resp candidates)
        top_k candidates).length ≤ 5 := by
  have hfb := extract_fallback candidates h1 h2
  refine ⟨hfb, ?_⟩
  rw [hfb]
  unfold selectRecommendations
  refine le_trans (List.length_filterMap_le _ _) ?_
  simp only [List.length_take, List.length_map]
  omega

/-- C9 witness: `C9_fallback_first_five` applied to a parser returning `none`,
a response without `[ID: n]` patterns, a six-candidate pool and `top_k = 10`;
both hypotheses discharged there. -/
theorem C9_fallback_first_five_witness :
    _extract_movie_ids (fun _ => none) "no ids here"
        [⟨1, "a"⟩, ⟨2, "b"⟩, ⟨3, "c"⟩, ⟨4, "d"⟩, ⟨5, "e"⟩, ⟨6, "f"⟩] =
      (([⟨1, "a"⟩, ⟨2, "b"⟩, ⟨3, "c"⟩, ⟨4, "d"⟩, ⟨5, "e"⟩,
        ⟨6, "f"⟩] : List Candidate).take 5).map Candidate.movie_id ∧
    (selectRecommendations
        (_extract_movie_ids (fun _ => none) "no ids here"
          [⟨1, "a"⟩, ⟨2, "b"⟩, ⟨3, "c"⟩, ⟨4, "d"⟩, ⟨5, "e"⟩, ⟨6, "f"⟩])
        10 [⟨1, "a"⟩, ⟨2, "b"⟩, ⟨3, "c"⟩, ⟨4, "d"⟩, ⟨5, "e"⟩, ⟨6, "f"⟩]).length ≤ 5 :=
  C9_fallback_first_five (fun _ => none) "no ids here"
    [⟨1, "a"⟩, ⟨2, "b"⟩, ⟨3, "c"⟩, ⟨4, "d"⟩, ⟨5, "e"⟩, ⟨6, "f"⟩] 10 rfl (by decide)
